import Mathlib

/-!
Shallow embedding of the koa-auth-cas middleware (src/index.js): the CAS
response parsers (`_validate` for versions 1.0, 2.0, 3.0, saml1.1), the
request decision flow (`_handle`, `_login`, `_handleTicket`), the
single-logout handler (`handle_single_logout`), and a trace model of the
ticket-to-session binding store.

JavaScript values reachable in these code paths are modelled by `JsVal`
(`undef` also stands for `null`); property access on `undef` raises a
TypeError, modelled in the `Except Unit` monad.  The external xml2js
parser is an uninterpreted parameter `parseXML : String → Except Unit JsVal`
(`.error` = the parse callback got an `err`).  The external session store
and the HTTP transport are likewise supplied as oracle inputs.
-/

namespace KoaAuthCas

/-- A JavaScript value as produced by xml2js / stored in the session.
`undef` stands for both `undefined` and `null`. -/
inductive JsVal where
  | undef : JsVal
  | str : String → JsVal
  | obj : List (String × JsVal) → JsVal
  | arr : List JsVal → JsVal

/-- JavaScript truthiness for the values we model: `undefined`/`null` and
the empty string are falsy, every object and array is truthy. -/
def JsVal.truthy : JsVal → Bool
  | .undef => false
  | .str s => s ≠ ""
  | .obj _ => true
  | .arr _ => true

/-- Property read `v[k]`: on an object, the first field named `k`
(missing field ⇒ `undefined`); on a string or array, `undefined`
(we model no built-in properties); reading a property of `undefined`
is a TypeError and is modelled separately by `jsAccess`. -/
def JsVal.get : JsVal → String → JsVal
  | .undef, _ => .undef
  | .str _, _ => .undef
  | .arr _, _ => .undef
  | .obj fields, k => (fields.lookup k).getD .undef

mutual

/-- JavaScript string coercion (`'' + v`) for the modelled values:
`undefined → "undefined"`, strings unchanged, plain objects
`"[object Object]"`, arrays joined by commas. -/
def jsToString : JsVal → String
  | .undef => "undefined"
  | .str s => s
  | .obj _ => "[object Object]"
  | .arr elems => String.intercalate "," (jsToStringArrayElems elems)

/-- Elementwise string coercion inside an array (`Array.prototype.join`
renders `undefined`/`null` elements as the empty string). -/
def jsToStringArrayElems : List JsVal → List String
  | [] => []
  | .undef :: rest => "" :: jsToStringArrayElems rest
  | v :: rest => jsToString v :: jsToStringArrayElems rest

end

/-- Property access `v.k` in the exception monad: a TypeError (reading a
property of `undefined`) is `.error ()`. -/
def jsAccess (v : JsVal) (k : String) : Except Unit JsVal :=
  match v with
  | .undef => .error ()
  | w => .ok (w.get k)

/-- `v.k1.k2` — two chained property accesses. -/
def jsAccess2 (v : JsVal) (k1 k2 : String) : Except Unit JsVal := do
  let w ← jsAccess v k1
  jsAccess w k2

/-- The outcome a `_validate` strategy delivers through its callback:
`callback(err)` or `callback(null, user, attributes)`.  `user` and
`attributes` are the raw JavaScript values passed (either may be
`undefined`). -/
inductive Outcome where
  | failure : String → Outcome
  | success : JsVal → JsVal → Outcome

/-- The supported CAS protocol versions (the constructor rejects any
other `cas_version`). -/
inductive CasVersion where
  | v1
  | v2
  | v3
  | saml11
deriving Repr, DecidableEq

/-- `_validateUri` as assigned per version in the constructor. -/
def validateUri : CasVersion → String
  | .v1 => "/validate"
  | .v2 => "/serviceValidate"
  | .v3 => "/p3/serviceValidate"
  | .saml11 => "/samlValidate"

/-- `String.prototype.split` with a single-character separator:
recursion over the remaining characters, accumulating the current
segment (`"".split(sep)` is `[""]`, like in JavaScript). -/
def splitCharAux (sep : Char) : List Char → List Char → List String
  | [], acc => [String.mk acc.reverse]
  | c :: rest, acc =>
    if c = sep then String.mk acc.reverse :: splitCharAux sep rest []
    else splitCharAux sep rest (c :: acc)

/-- `s.split(sep)` for a one-character separator. -/
def splitChar (sep : Char) (s : String) : List String :=
  splitCharAux sep s.data []

/-- The CAS 1.0 `_validate`: split the body on newlines;
`"yes"` first line with a second line ⇒ success with that line,
`"no"` first line ⇒ authentication failure, anything else ⇒ bad
response.  The `.ok` wrapper records that the callback is always
reached (no uncaught exception escapes). -/
def validateV1 (body : String) : Except Unit Outcome :=
  let lines := splitChar (Char.ofNat 10) body
  if lines.head? = some "yes" ∧ lines.length ≥ 2 then
    .ok (.success ((lines[1]?).elim .undef .str) .undef)
  else if lines.head? = some "no" then
    .ok (.failure "CAS authentication failed.")
  else
    .ok (.failure "Response from CAS server was bad.")

/-- The `try { ... }` body of the CAS 2.0/3.0 `_validate` callback,
acting on the xml2js result tree; a thrown TypeError is `.error ()`. -/
def v23TryBody (result : JsVal) : Except Unit Outcome := do
  let sr ← jsAccess result "serviceresponse"
  let failure ← jsAccess sr "authenticationfailure"
  if failure.truthy then
    let fdollar ← jsAccess failure "$"
    let code ← jsAccess fdollar "code"
    return .failure ("CAS authentication failed (" ++ jsToString code ++ ").")
  else
    let success ← jsAccess sr "authenticationsuccess"
    if success.truthy then
      return .success (success.get "user") (success.get "attributes")
    else
      return .failure "CAS authentication failed."

/-- The CAS 2.0/3.0 `_validate`: xml2js error ⇒ bad-response failure;
otherwise the `try` body runs with its `catch` downgrading any thrown
error to the generic failure.  `.ok` = the callback was invoked. -/
def validateV23 (parsed : Except Unit JsVal) : Except Unit Outcome :=
  match parsed with
  | .error _ => .ok (.failure "Response from CAS server was bad.")
  | .ok result =>
    match v23TryBody result with
    | .ok o => .ok o
    | .error _ => .ok (.failure "CAS authentication failed.")

/-- `s.split(':')` on a JavaScript value: a TypeError unless the value
is a string. -/
def jsSplitColon : JsVal → Except Unit (List String)
  | .str s => .ok (splitChar (Char.ofNat 58) s)
  | _ => .error ()

/-- The value `attr.attributevalue` contributes to the SAML attribute
map: an array of value elements yields the list of their `_` text
fields, a single element yields its `_` text field (a TypeError if the
single element is `undefined`). -/
def samlAttrValue (av : JsVal) : Except Unit JsVal :=
  match av with
  | .arr vs => .ok (.arr (vs.map (fun v => v.get "_")))
  | v => do
    let t ← jsAccess v "_"
    return t

/-- One iteration of the SAML attribute `forEach`: extend the
`attributes` object with `attr.$.AttributeName ↦ value`. -/
def samlAttrStep (acc : List (String × JsVal)) (attr : JsVal) :
    Except Unit (List (String × JsVal)) := do
  let av ← jsAccess attr "attributevalue"
  let value ← samlAttrValue av
  let dollar ← jsAccess attr "$"
  let name ← jsAccess dollar "AttributeName"
  return acc ++ [(jsToString name, value)]

/-- The `try { ... }` body of the saml1.1 `_validate` callback. -/
def samlTryBody (result : JsVal) : Except Unit Outcome := do
  let envelope ← jsAccess result "envelope"
  let bodyEl ← jsAccess envelope "body"
  let samlResponse ← jsAccess bodyEl "response"
  let status ← jsAccess samlResponse "status"
  let statuscode ← jsAccess status "statuscode"
  let dollar ← jsAccess statuscode "$"
  let value ← jsAccess dollar "Value"
  let segments ← jsSplitColon value
  let success := segments[1]?
  if success ≠ some "Success" then
    return .failure ("CAS authentication failed (" ++
      (success.getD "undefined") ++ ").")
  else
    let assertion ← jsAccess samlResponse "assertion"
    let attributestatement ← jsAccess assertion "attributestatement"
    let attributeRaw ← jsAccess attributestatement "attribute"
    let attributesArray : List JsVal :=
      match attributeRaw with
      | .arr vs => vs
      | v => [v]
    let attributes ← attributesArray.foldlM samlAttrStep []
    let authenticationstatement ← jsAccess assertion "authenticationstatement"
    let subject ← jsAccess authenticationstatement "subject"
    let nameidentifier ← jsAccess subject "nameidentifier"
    return .success nameidentifier (.obj attributes)

/-- The saml1.1 `_validate`: xml2js error ⇒ bad-response failure;
otherwise run the `try` body, its `catch` downgrading any thrown error
to the generic failure. -/
def validateSaml (parsed : Except Unit JsVal) : Except Unit Outcome :=
  match parsed with
  | .error _ => .ok (.failure "Response from CAS server was bad.")
  | .ok result =>
    match samlTryBody result with
    | .ok o => .ok o
    | .error _ => .ok (.failure "CAS authentication failed.")

section Parsers

variable (parseXML : String → Except Unit JsVal)

/-- The `_validate` strategy selected by the constructor for a version,
applied to a raw response body.  The XML versions hand the body to the
external xml2js parser `parseXML` first. -/
def casValidate : CasVersion → String → Except Unit Outcome
  | .v1, body => validateV1 body
  | .v2, body => validateV23 (parseXML body)
  | .v3, body => validateV23 (parseXML body)
  | .saml11, body => validateSaml (parseXML body)

end Parsers

/-! ## Request context, configuration and the decision engine -/

/-- One day in milliseconds (`ONE_DAY = 24 * 60 * 60 * 1000`), the TTL
passed to the store when registering a ticket-to-session binding. -/
def ONE_DAY : Nat := 24 * 60 * 60 * 1000

/-- The koa session object: an assoc list of slots (later writes shadow
earlier ones). -/
def Session := List (String × JsVal)

/-- Write a session slot (`ctx.session[k] = v`). -/
def sset (s : Session) (k : String) (v : JsVal) : Session := (k, v) :: s

/-- Read a session slot (`ctx.session[k]`, `undefined` when absent). -/
def sget (s : Session) (k : String) : JsVal :=
  (List.lookup k s).getD JsVal.undef

/-- The authorization modes (`AUTH_TYPE`). -/
inductive AuthType where
  | bounce
  | bounce_redirect
  | block
deriving Repr, DecidableEq

/-- Configuration after the constructor applied its defaults.
`session_info = none` models the JavaScript value `false` (the default,
also forced for version 1.0 regardless of the option). -/
structure CasConfig where
  cas_url : String
  cas_host : String
  cas_port : Nat
  cas_path : String
  service_url : String
  cas_version : CasVersion
  renew : Bool
  is_dev_mode : Bool
  dev_mode_user : String
  dev_mode_info : JsVal
  session_name : String
  session_info : Option String
  single_logout : Bool

/-- Truthiness of `this.session_info` (`false` and `""` are falsy). -/
def sessionInfoTruthy : Option String → Bool
  | none => false
  | some s => s ≠ ""

/-- `this.session_info` coerced to a property key: the boolean `false`
becomes the literal key `"false"`. -/
def sessionInfoKey : Option String → String
  | none => "false"
  | some s => s

/-- The per-request inputs `_handle` reads from the koa context:
the session, the `ticket`/`redirectTo`/`returnTo` query parameters,
`url.parse(ctx.url).path` and `.pathname`, and the session's external
store key (`ctx.session._sessCtx.externalKey`). -/
structure Ctx where
  session : Session
  ticket : Option String
  redirectTo : Option String
  returnTo : Option String
  path : String
  pathname : String
  externalKey : String

/-- The user-visible action a handler run ends in.  `silent` is the
path where a caught store error makes the handler resolve without
touching the response; `thrown` is an uncaught exception escaping the
handler. -/
inductive Action where
  | next : Action
  | redirect : JsVal → Action
  | status : Nat → Action
  | silent : Action
  | thrown : Action

/-- An outbound HTTP request as assembled in `requestOptions`. -/
structure ReqOpts where
  host : String
  port : Nat
  method : String
  path : String

/-- A session-store side effect performed by a handler. -/
inductive StoreOp where
  | set : String → JsVal → Nat → StoreOp
  | setFail : String → StoreOp
  | destroyOk : JsVal → StoreOp
  | destroyFail : JsVal → StoreOp

/-- The observable result of `_handle` / `_handleTicket`: the response
action, the session afterwards, the store operations performed, and the
validation request issued (if any). -/
structure HandleResult where
  action : Action
  session : Session
  storeOps : List StoreOp
  request : Option ReqOpts

/-- Oracle inputs standing for the external world during a ticket
validation: the transport result of `_request` (response body, or a
transport error rejecting the promise) and whether `store.set`
succeeds. -/
structure TicketOracles where
  net : Except Unit String
  setOk : Bool

/-- Hexadecimal digit (uppercase) for percent-encoding. -/
def hexDigit (n : Nat) : Char :=
  if n < 10 then Char.ofNat (48 + n) else Char.ofNat (55 + n)

/-- Characters `querystring.escape` leaves unescaped: alphanumerics and
`- _ . ! ~ * ' ( )`. -/
def isQsUnescaped (c : Char) : Bool :=
  (65 ≤ c.toNat ∧ c.toNat ≤ 90) ∨ (97 ≤ c.toNat ∧ c.toNat ≤ 122) ∨
  (48 ≤ c.toNat ∧ c.toNat ≤ 57) ∨
  c.toNat ∈ [45, 95, 46, 33, 126, 42, 39, 40, 41]

/-- The UTF-8 byte values of a character (as natural numbers). -/
def utf8Bytes (c : Char) : List Nat :=
  let n := c.toNat
  if n < 128 then [n]
  else if n < 2048 then [192 + n / 64, 128 + n % 64]
  else if n < 65536 then [224 + n / 4096, 128 + (n / 64) % 64, 128 + n % 64]
  else [240 + n / 262144, 128 + (n / 4096) % 64, 128 + (n / 64) % 64, 128 + n % 64]

/-- Percent-encode one byte. -/
def escapeByte (b : Nat) : String :=
  String.mk [Char.ofNat 37, hexDigit (b / 16), hexDigit (b % 16)]

/-- `querystring.escape`: keep unescaped characters, percent-encode the
UTF-8 bytes of the rest. -/
def qsEscape (s : String) : String :=
  String.join (s.data.map fun c =>
    if isQsUnescaped c then String.mk [c]
    else String.join ((utf8Bytes c).map escapeByte))

/-- `querystring.stringify`: `k=v` pairs joined by `&`. -/
def formatQuery (q : List (String × String)) : String :=
  String.intercalate "&" (q.map fun p => qsEscape p.1 ++ "=" ++ qsEscape p.2)

/-- `url.format({pathname, query})` for the shapes this middleware
builds: pathname, then `?` and the stringified query when nonempty. -/
def urlFormatPath (pathname : String) (q : List (String × String)) : String :=
  pathname ++ (if q.isEmpty then "" else "?" ++ formatQuery q)

/-- `ctx.query.returnTo || url.parse(ctx.url).path` — the return URL
saved by `_login` (the explicit `returnTo` wins when truthy). -/
def returnToValue (ctx : Ctx) : String :=
  match ctx.returnTo with
  | some r => if r = "" then ctx.path else r
  | none => ctx.path

/-- The query object `_login` passes to `url.format`: always `service`,
plus `renew=true` only when configured. -/
def loginQuery (cfg : CasConfig) (ctx : Ctx) : List (String × String) :=
  [("service", cfg.service_url ++ ctx.pathname)] ++
    (if cfg.renew then [("renew", "true")] else [])

/-- `_login`: save the return URL in `ctx.session.cas_return_to` and
redirect to the CAS login endpoint. -/
def _login (cfg : CasConfig) (ctx : Ctx) : HandleResult :=
  { action := .redirect (.str (cfg.cas_url ++
      urlFormatPath "/login" (loginQuery cfg ctx)))
    session := sset ctx.session "cas_return_to" (.str (returnToValue ctx))
    storeOps := []
    request := none }

/-- `attributes || {}` as written on the success path of
`_handleTicket`. -/
def attrsOrEmpty (a : JsVal) : JsVal :=
  if a.truthy then a else .obj []

section Engine

variable (parseXML : String → Except Unit JsVal)

/-- `_handleTicket`: build the validation request, run the round trip,
hand the body to `_validate`, and commit the session/store effects on
success.  For `saml1.1` the body-building code dereferences `req.host`
and `req.query.ticket`, but no variable `req` is in scope in this
function (the context is `ctx`), so a ReferenceError is thrown before
any request is issued. -/
def _handleTicket (cfg : CasConfig) (ctx : Ctx) (o : TicketOracles) :
    HandleResult :=
  if cfg.cas_version = .saml11 then
    { action := .thrown, session := ctx.session, storeOps := [], request := none }
  else
    let req : ReqOpts :=
      { host := cfg.cas_host
        port := cfg.cas_port
        method := "GET"
        path := urlFormatPath (cfg.cas_path ++ validateUri cfg.cas_version)
          [("service", cfg.service_url ++ ctx.pathname),
           ("ticket", ctx.ticket.getD "")] }
    match o.net with
    | .error _ =>
      -- transport failure: the outer catch logs and sets 401
      { action := .status 401, session := ctx.session, storeOps := [],
        request := some req }
    | .ok body =>
      match casValidate parseXML cfg.cas_version body with
      | .error _ =>
        -- a throw out of _validate rejects the promise; the outer catch sets 401
        { action := .status 401, session := ctx.session, storeOps := [],
          request := some req }
      | .ok (.failure _) =>
        { action := .status 401, session := ctx.session, storeOps := [],
          request := some req }
      | .ok (.success user attributes) =>
        let commit : List StoreOp → HandleResult := fun ops =>
          let s1 := sset ctx.session cfg.session_name user
          let s2 :=
            if sessionInfoTruthy cfg.session_info then
              sset s1 (sessionInfoKey cfg.session_info) (attrsOrEmpty attributes)
            else s1
          { action := .redirect (sget s2 "cas_return_to"), session := s2,
            storeOps := ops, request := some req }
        if cfg.single_logout then
          if o.setOk then
            commit [.set (ctx.ticket.getD "")
              (.obj [("key", .str ctx.externalKey)]) ONE_DAY]
          else
            -- store.set threw: the catch logs and resolves; no session
            -- write, no redirect, no status
            { action := .silent, session := ctx.session,
              storeOps := [.setFail (ctx.ticket.getD "")], request := some req }
        else commit []

/-- Truthiness of `ctx.query && ctx.query.ticket`. -/
def ticketTruthy (ctx : Ctx) : Bool :=
  match ctx.ticket with
  | some t => t ≠ ""
  | none => false

/-- `_handle`: the per-request decision flow shared by `bounce`,
`bounce_redirect` and `block`. -/
def _handle (cfg : CasConfig) (ctx : Ctx) (authType : AuthType)
    (o : TicketOracles) : HandleResult :=
  if (sget ctx.session cfg.session_name).truthy then
    if authType = .bounce_redirect then
      { action := .redirect ((ctx.redirectTo.map .str).getD .undef)
        session := ctx.session, storeOps := [], request := none }
    else
      { action := .next, session := ctx.session, storeOps := [], request := none }
  else if cfg.is_dev_mode then
    let s1 := sset ctx.session cfg.session_name (.str cfg.dev_mode_user)
    let s2 := sset s1 (sessionInfoKey cfg.session_info) cfg.dev_mode_info
    { action := .next, session := s2, storeOps := [], request := none }
  else if authType = .block then
    { action := .status 401, session := ctx.session, storeOps := [], request := none }
  else if ticketTruthy ctx then
    _handleTicket parseXML cfg ctx o
  else
    _login cfg ctx

end Engine

/-! ## Single logout -/

/-- How `handle_single_logout` ends for the notifier: `ack b` sets the
body to `"ok"` (with status 202 when `b` is true); `noAck` is the path
where a throw inside the promise means `resolve()` never runs and
`ctx.body = 'ok'` is never reached. -/
inductive SloOutcome where
  | ack : Bool → SloOutcome
  | noAck : SloOutcome

/-- Oracle inputs for the store during single-logout reconciliation:
the result of `store.get(st)` (a thrown error or the value read), and
whether each of the two destroys succeeds. -/
structure SloStore where
  getResult : Except Unit JsVal
  destroySessionOk : Bool
  destroyStOk : Bool

/-- Result of a `handle_single_logout` run: the acknowledgment outcome
and the store operations performed, in order. -/
structure SloResult where
  outcome : SloOutcome
  ops : List StoreOp

section Slo

variable (parseXML : String → Except Unit JsVal)

/-- `handle_single_logout`: acknowledge immediately when single logout
is disabled; otherwise parse the notification, extract
`result.logoutrequest.sessionindex`, look the binding up and destroy
session and binding, downgrading store failures to status 202.  A parse
error (or a TypeError extracting the session index, which sits outside
the `try`) throws inside the promise executor's async callback: the
promise never resolves and no acknowledgment body is ever set. -/
def handle_single_logout (cfg : CasConfig) (logoutRequest : String)
    (store : SloStore) : SloResult :=
  if ¬ cfg.single_logout then ⟨.ack false, []⟩
  else
    match parseXML logoutRequest with
    | .error _ => ⟨.noAck, []⟩
    | .ok result =>
      match jsAccess2 result "logoutrequest" "sessionindex" with
      | .error _ => ⟨.noAck, []⟩
      | .ok st =>
        match store.getResult with
        | .error _ => ⟨.ack true, []⟩
        | .ok sessionResult =>
          if sessionResult.truthy ∧ (sessionResult.get "key").truthy then
            let key := sessionResult.get "key"
            if store.destroySessionOk then
              if store.destroyStOk then
                ⟨.ack false, [.destroyOk key, .destroyOk st]⟩
              else
                ⟨.ack true, [.destroyOk key, .destroyFail st]⟩
            else
              ⟨.ack true, [.destroyFail key]⟩
          else
            if store.destroyStOk then ⟨.ack false, [.destroyOk st]⟩
            else ⟨.ack true, [.destroyFail st]⟩

end Slo

/-! ## Lifecycle of ticket-to-session bindings

A trace model for the store entries keyed by ticket value: successful
ticket validations execute `store.set(ticket, {key}, ONE_DAY, ...)`
when `single_logout` is enabled (the `.set` operation emitted by
`_handleTicket`), and a single-logout reconciliation whose destroy of
the ticket entry succeeds removes it (the `.destroyOk st` operation
emitted by `handle_single_logout`). -/

/-- A stored ticket-to-session binding: the local session key, the
moment the entry was written, and its TTL. -/
structure Binding where
  key : String
  insertedAt : Nat
  ttl : Nat
deriving Repr, DecidableEq

/-- The external store restricted to entries keyed by ticket value. -/
def BindingStore := List (String × Binding)

/-- `store.set(t, {key: k}, ttl, ...)` at time `now`. -/
def storeSet (st : BindingStore) (t k : String) (ttl now : Nat) : BindingStore :=
  (t, ⟨k, now, ttl⟩) :: st

/-- `store.destroy(t)`. -/
def storeDestroy (st : BindingStore) (t : String) : BindingStore :=
  st.filter (fun e => e.1 != t)

/-- The two events that touch ticket-keyed store entries:
a ticket validation that succeeded (with the `single_logout` flag under
which it ran) and a single-logout reconciliation that destroyed the
ticket entry. -/
inductive SloEvent where
  | validated : Bool → String → String → Nat → SloEvent
  | reconciled : String → Nat → SloEvent
deriving Repr, DecidableEq

/-- Store effect of one event, as performed by `_handleTicket`
(`set` with TTL `ONE_DAY`, only when single logout is enabled) and
`handle_single_logout` (`destroy` of the ticket entry). -/
def sloStep (st : BindingStore) : SloEvent → BindingStore
  | .validated slo t k time => if slo then storeSet st t k ONE_DAY time else st
  | .reconciled t _ => storeDestroy st t

/-- The store contents after a trace of events, starting empty. -/
def runTrace (tr : List SloEvent) : BindingStore :=
  tr.foldl sloStep []

/-- A binding for ticket `t` exists and is unexpired at time `now`. -/
def bindingLive (st : BindingStore) (t : String) (now : Nat) : Bool :=
  match List.lookup t st with
  | some b => decide (now < b.insertedAt + b.ttl)
  | none => false

/-- After `post`, nothing re-validated ticket `t` under single logout
and nothing reconciled it. -/
def noLaterEvents (post : List SloEvent) (t : String) : Prop :=
  (∀ k2 t2, SloEvent.validated true t k2 t2 ∉ post) ∧
  (∀ t2, SloEvent.reconciled t t2 ∉ post)

/-- Ticket `t` was validated (successfully, with single logout enabled)
with session key `k` at time `ti`, and that validation is the last
event of the trace touching `t`'s binding. -/
def lastValidation (tr : List SloEvent) (t k : String) (ti : Nat) : Prop :=
  ∃ pre post, tr = pre ++ SloEvent.validated true t k ti :: post ∧
    noLaterEvents post t

theorem append_singleton_cases (tr : List SloEvent) (e v : SloEvent)
    (pre post : List SloEvent) (h : tr ++ [e] = pre ++ v :: post) :
    (post = [] ∧ tr = pre ∧ e = v) ∨
    ∃ post2, post = post2 ++ [e] ∧ tr = pre ++ v :: post2 := by
  rcases List.eq_nil_or_concat post with hpost | ⟨post2, a, hpost⟩
  · subst hpost
    rcases List.append_inj' h rfl with ⟨h1, h2⟩
    simp only [List.cons.injEq, and_true] at h2
    exact Or.inl ⟨rfl, h1, h2⟩
  · subst hpost
    have h2 : tr ++ [e] = (pre ++ v :: post2) ++ [a] := by
      rw [h]; simp [List.concat_eq_append]
    rcases List.append_inj' h2 rfl with ⟨h1, h3⟩
    simp only [List.cons.injEq, and_true] at h3
    subst h3
    exact Or.inr ⟨post2, by simp [List.concat_eq_append], h1⟩

theorem lastValidation_append (tr : List SloEvent) (e : SloEvent)
    (t k : String) (ti : Nat)
    (hv : ∀ k2 t2, e ≠ .validated true t k2 t2)
    (hr : ∀ t2, e ≠ .reconciled t t2) :
    lastValidation (tr ++ [e]) t k ti ↔ lastValidation tr t k ti := by
  constructor
  · rintro ⟨pre, post, hdec, hnv, hnr⟩
    rcases append_singleton_cases tr e _ pre post hdec with
      ⟨hp, htr, he⟩ | ⟨post2, hp, htr⟩
    · exact absurd he (hv k ti)
    · subst hp
      exact ⟨pre, post2, htr, fun k2 t2 hm => hnv k2 t2 (List.mem_append_left _ hm),
        fun t2 hm => hnr t2 (List.mem_append_left _ hm)⟩
  · rintro ⟨pre, post, hdec, hnv, hnr⟩
    refine ⟨pre, post ++ [e], by rw [hdec]; simp, fun k2 t2 hm => ?_, fun t2 hm => ?_⟩
    · rcases List.mem_append.mp hm with h | h
      · exact hnv k2 t2 h
      · simp at h; exact hv k2 t2 h.symm
    · rcases List.mem_append.mp hm with h | h
      · exact hnr t2 h
      · simp at h; exact hr t2 h.symm

theorem lastValidation_append_self (tr : List SloEvent) (t k k2 : String)
    (ti ti2 : Nat) :
    lastValidation (tr ++ [.validated true t k2 ti2]) t k ti ↔
      k = k2 ∧ ti = ti2 := by
  constructor
  · rintro ⟨pre, post, hdec, hnv, hnr⟩
    rcases append_singleton_cases tr _ _ pre post hdec with
      ⟨hp, htr, he⟩ | ⟨post2, hp, htr⟩
    · injection he with hb ht hk hti
      exact ⟨hk.symm, hti.symm⟩
    · subst hp
      exact absurd (List.mem_append_right post2 (List.mem_singleton.mpr rfl))
        (hnv k2 ti2)
  · rintro ⟨rfl, rfl⟩
    exact ⟨tr, [], rfl, fun k3 t3 hm => absurd hm (List.not_mem_nil _),
      fun t3 hm => absurd hm (List.not_mem_nil _)⟩

theorem lastValidation_append_reconciled (tr : List SloEvent) (t k : String)
    (ti tj : Nat) :
    ¬ lastValidation (tr ++ [.reconciled t tj]) t k ti := by
  rintro ⟨pre, post, hdec, hnv, hnr⟩
  rcases append_singleton_cases tr _ _ pre post hdec with
    ⟨hp, htr, he⟩ | ⟨post2, hp, htr⟩
  · exact SloEvent.noConfusion he
  · subst hp
    exact hnr tj (List.mem_append_right post2 (List.mem_singleton.mpr rfl))

theorem lookup_storeDestroy_ne (st : BindingStore) (t t2 : String)
    (h : t ≠ t2) :
    List.lookup t (storeDestroy st t2) = List.lookup t st := by
  induction st with
  | nil => rfl
  | cons hd tl ih =>
    by_cases hk : hd.1 = t2
    · have : (hd.1 != t2) = false := by simp [hk]
      simp only [storeDestroy, List.filter] at ih ⊢
      rw [this]
      have hne : (t == hd.1) = false := by simp [hk, h]
      simp [List.lookup, hne, ih]
    · have : (hd.1 != t2) = true := by simp [hk]
      simp only [storeDestroy, List.filter] at ih ⊢
      rw [this]
      by_cases ht : t = hd.1
      · simp [List.lookup, ht]
      · have hne : (t == hd.1) = false := by simp [ht]
        simp [List.lookup, hne, ih]

theorem lookup_storeDestroy_self (st : BindingStore) (t : String) :
    List.lookup t (storeDestroy st t) = none := by
  induction st with
  | nil => rfl
  | cons hd tl ih =>
    by_cases hk : hd.1 = t
    · have : (hd.1 != t) = false := by simp [hk]
      simp only [storeDestroy, List.filter] at ih ⊢
      rw [this]; exact ih
    · have : (hd.1 != t) = true := by simp [hk]
      simp only [storeDestroy, List.filter] at ih ⊢
      rw [this]
      have hne : (t == hd.1) = false := by simp [Ne.symm hk]
      simp [List.lookup, hne, ih]

/-! ## Session-slot helper lemmas -/

theorem sget_sset_self (s : Session) (k : String) (v : JsVal) :
    sget (sset s k v) k = v := by
  simp [sget, sset, List.lookup]

theorem sget_sset_ne (s : Session) (k k2 : String) (v : JsVal) (h : k2 ≠ k) :
    sget (sset s k v) k2 = sget s k2 := by
  have hb : (k2 == k) = false := beq_eq_false_iff_ne.mpr h
  simp [sget, sset, List.lookup, hb]

theorem lookup_runTrace (tr : List SloEvent) (t : String) (b : Binding) :
    List.lookup t (runTrace tr) = some b ↔
      lastValidation tr t b.key b.insertedAt ∧ b.ttl = ONE_DAY := by
  induction tr using List.reverseRecOn with
  | nil =>
    simp only [runTrace, List.foldl_nil, List.lookup]
    constructor
    · intro h; cases h
    · rintro ⟨⟨pre, post, hdec, _⟩, _⟩
      exact absurd hdec (by simp)
  | append_singleton tr e ih =>
    have hrun : runTrace (tr ++ [e]) = sloStep (runTrace tr) e := by
      simp [runTrace, List.foldl_append]
    cases e with
    | validated slo t2 k2 ti2 =>
      cases slo with
      | false =>
        rw [hrun]
        simp only [sloStep, if_neg (by simp : ¬ (false = true))]
        rw [ih, lastValidation_append tr _ t b.key b.insertedAt
          (fun _ _ h => by cases h) (fun _ h => by cases h)]
      | true =>
        by_cases ht : t2 = t
        · subst ht
          rw [hrun]
          simp only [sloStep, if_pos rfl, storeSet]
          rw [lastValidation_append_self tr t2 b.key k2 b.insertedAt ti2]
          constructor
          · intro h
            simp [List.lookup] at h
            exact ⟨⟨h ▸ rfl, h ▸ rfl⟩, h ▸ rfl⟩
          · rintro ⟨⟨hk, hti⟩, httl⟩
            simp [List.lookup]
            cases b
            simp_all
        · rw [hrun]
          simp only [sloStep, if_pos rfl, storeSet]
          have hne : (t == t2) = false := by simp [Ne.symm ht]
          simp only [List.lookup, hne]
          rw [ih, lastValidation_append tr _ t b.key b.insertedAt
            (fun k3 t3 h => by cases h; exact ht rfl) (fun _ h => by cases h)]
    | reconciled t2 tj =>
      by_cases ht : t2 = t
      · subst ht
        rw [hrun]
        simp only [sloStep]
        rw [lookup_storeDestroy_self]
        constructor
        · intro h; cases h
        · rintro ⟨hlv, _⟩
          exact absurd hlv (lastValidation_append_reconciled tr t2 b.key
            b.insertedAt tj)
      · rw [hrun]
        simp only [sloStep]
        rw [lookup_storeDestroy_ne _ _ _ (Ne.symm ht)]
        rw [ih, lastValidation_append tr _ t b.key b.insertedAt
          (fun _ _ h => by cases h) (fun _ h => by cases h; exact ht rfl)]

/-! ## Claim theorems -/

/-- C2: for every protocol version and every response body — and every
behavior of the external XML parser — the selected `_validate` strategy
always delivers an outcome through its callback: no exception escapes
the parser boundary. -/
theorem validate_never_raises (parseXML : String → Except Unit JsVal)
    (v : CasVersion) (body : String) :
    ∃ o : Outcome, casValidate parseXML v body = .ok o := by
  have hv23 : ∀ p : Except Unit JsVal, ∃ o, validateV23 p = .ok o := by
    intro p
    cases p with
    | error e => exact ⟨_, rfl⟩
    | ok result =>
      cases h : v23TryBody result with
      | ok o => exact ⟨o, by simp [validateV23, h]⟩
      | error e =>
        exact ⟨.failure "CAS authentication failed.", by simp [validateV23, h]⟩
  have hsaml : ∀ p : Except Unit JsVal, ∃ o, validateSaml p = .ok o := by
    intro p
    cases p with
    | error e => exact ⟨_, rfl⟩
    | ok result =>
      cases h : samlTryBody result with
      | ok o => exact ⟨o, by simp [validateSaml, h]⟩
      | error e =>
        exact ⟨.failure "CAS authentication failed.", by simp [validateSaml, h]⟩
  cases v
  case v1 =>
    simp only [casValidate, validateV1]
    split
    · exact ⟨_, rfl⟩
    · split
      · exact ⟨_, rfl⟩
      · exact ⟨_, rfl⟩
  case v2 => exact hv23 _
  case v3 => exact hv23 _
  case saml11 => exact hsaml _

/-! Fixtures for concrete instances. -/

/-- The status block of a SAML response whose status-code attribute is
`s`. -/
def samlStatusObj (s : String) : JsVal :=
  .obj [("statuscode", .obj [("$", .obj [("Value", .str s)])])]

/-- A SOAP envelope around a given response element, as xml2js parses
it (normalized, prefix-stripped tag names). -/
def samlEnvelope (response : JsVal) : JsVal :=
  .obj [("envelope", .obj [("body", .obj [("response", response)])])]

/-- The status-code extraction as the spec words it: the value after
the LAST colon of the status-code attribute. -/
def specStatusCodeAfterLastColon (s : String) : Option String :=
  (splitChar (Char.ofNat 58) s).getLast?

/-- A configuration with single logout enabled (version 3.0 defaults
otherwise), for concrete instances. -/
def cfgSlo : CasConfig :=
  { cas_url := "https://cas.example.org", cas_host := "cas.example.org",
    cas_port := 443, cas_path := "", service_url := "https://app.example.org",
    cas_version := .v3, renew := false, is_dev_mode := false,
    dev_mode_user := "", dev_mode_info := .obj [], session_name := "cas_user",
    session_info := none, single_logout := true }

/-- C5 counterexample: for the status-code attribute `"a:b:Success"`
the value after the last colon is `"Success"` (so per the claim the
response would not be rejected with that code), yet the code takes
`split(':')[1]` — the segment after the FIRST colon, here `"b"` — and
fails with `"CAS authentication failed (b)."`. -/
theorem saml_status_not_last_colon :
    specStatusCodeAfterLastColon "a:b:Success" = some "Success" ∧
    validateSaml (.ok (samlEnvelope (.obj [("status", samlStatusObj "a:b:Success")]))) =
      .ok (.failure "CAS authentication failed (b).") :=
  ⟨rfl, rfl⟩

/-- C5 amended: the status code compared against `"Success"` is the
SECOND segment of splitting the status-code attribute on `":"` (the
part after the first colon, not the last); any other value `c` yields
`Failure "CAS authentication failed (<c>)."`, and a colon-free
attribute yields the code rendered as `"undefined"`. -/
theorem saml_status_second_segment (s : String) (rest : List (String × JsVal)) :
    (∀ c : String, (splitChar (Char.ofNat 58) s)[1]? = some c → c ≠ "Success" →
      validateSaml (.ok (samlEnvelope (.obj (("status", samlStatusObj s) :: rest)))) =
        .ok (.failure ("CAS authentication failed (" ++ c ++ ")."))) ∧
    ((splitChar (Char.ofNat 58) s)[1]? = none →
      validateSaml (.ok (samlEnvelope (.obj (("status", samlStatusObj s) :: rest)))) =
        .ok (.failure "CAS authentication failed (undefined).")) := by
  constructor
  · intro c hc hne
    have hbody : samlTryBody (samlEnvelope (.obj (("status", samlStatusObj s) :: rest))) =
        .ok (.failure ("CAS authentication failed (" ++ c ++ ").")) := by
      unfold samlTryBody
      simp only [samlEnvelope, samlStatusObj, jsAccess, JsVal.get, List.lookup,
        jsSplitColon, bind, Except.bind, hc]
      simp [hc, hne, pure, Except.pure]
    simp [validateSaml, hbody]
  · intro hc
    have hbody : samlTryBody (samlEnvelope (.obj (("status", samlStatusObj s) :: rest))) =
        .ok (.failure "CAS authentication failed (undefined).") := by
      unfold samlTryBody
      simp only [samlEnvelope, samlStatusObj, jsAccess, JsVal.get, List.lookup,
        jsSplitColon, bind, Except.bind, hc]
      simp [hc, pure, Except.pure]
    simp [validateSaml, hbody]

/-- Witness for the C5 amended claim at `"samlp:Bad"`. -/
theorem saml_status_second_segment_witness :
    validateSaml (.ok (samlEnvelope (.obj [("status", samlStatusObj "samlp:Bad")]))) =
      .ok (.failure "CAS authentication failed (Bad).") :=
  (saml_status_second_segment "samlp:Bad" []).1 "Bad" rfl (by decide)

/-- C3 counterexample: with single logout enabled and a logout payload
the XML parser rejects, `handle_single_logout` throws inside the
promise executor's callback (`throw new Error('SLO request from CAS
server was bad.')`), so `resolve()` never runs and the acknowledgment
body `"ok"` is never set — contradicting "returns ok regardless of
internal outcome, including when parsing fails". -/
theorem slo_parse_failure_no_ack :
    (handle_single_logout (fun _ => .error ()) cfgSlo "<bad" ⟨.ok .undef, true, true⟩).outcome ≠ SloOutcome.ack true ∧
    (handle_single_logout (fun _ => .error ()) cfgSlo "<bad" ⟨.ok .undef, true, true⟩).outcome ≠ SloOutcome.ack false := by
  constructor <;> exact fun h => SloOutcome.noConfusion h

/-- C3 amended: `handle_single_logout` acknowledges with body `"ok"`
whenever single logout is disabled, or the logout payload parses and
exposes `logoutrequest.sessionindex` — regardless of store lookup and
destroy failures.  (When parsing or the session-index extraction
throws, no acknowledgment is ever sent.) -/
theorem slo_ack_when_parse_ok (parseXML : String → Except Unit JsVal)
    (cfg : CasConfig) (lr : String) (store : SloStore)
    (h : cfg.single_logout = false ∨
      ∃ result st, parseXML lr = .ok result ∧
        jsAccess2 result "logoutrequest" "sessionindex" = .ok st) :
    ∃ b, (handle_single_logout parseXML cfg lr store).outcome = .ack b := by
  cases hsl : cfg.single_logout with
  | false => exact ⟨false, by simp [handle_single_logout, hsl]⟩
  | true =>
    rcases h with h | ⟨result, st, hpx, hst⟩
    · rw [h] at hsl; cases hsl
    · cases hg : store.getResult with
      | error e =>
        exact ⟨true, by simp [handle_single_logout, hsl, hpx, hst, hg]⟩
      | ok sessionResult =>
        by_cases hk : (sessionResult.truthy = true ∧
            (sessionResult.get "key").truthy = true)
        · cases hd1 : store.destroySessionOk with
          | true =>
            cases hd2 : store.destroyStOk with
            | true => exact ⟨false, by
                simp [handle_single_logout, hsl, hpx, hst, hg, hd1, hd2, hk]⟩
            | false => exact ⟨true, by
                simp [handle_single_logout, hsl, hpx, hst, hg, hd1, hd2, hk]⟩
          | false => exact ⟨true, by
              simp [handle_single_logout, hsl, hpx, hst, hg, hd1, hk]⟩
        · cases hd2 : store.destroyStOk with
          | true => exact ⟨false, by
              simp [handle_single_logout, hsl, hpx, hst, hg, hd2, hk]⟩
          | false => exact ⟨true, by
              simp [handle_single_logout, hsl, hpx, hst, hg, hd2, hk]⟩

/-- Witness for the C3 amended claim: a parseable logout notification
with both destroys failing is still acknowledged. -/
theorem slo_ack_when_parse_ok_witness :
    ∃ b, (handle_single_logout
      (fun _ => .ok (.obj [("logoutrequest", .obj [("sessionindex", .str "ST-1")])]))
      cfgSlo "req" ⟨.ok (.obj [("key", .str "sess-9")]), false, false⟩).outcome =
        .ack b :=
  slo_ack_when_parse_ok _ cfgSlo "req" _
    (Or.inr ⟨_, .str "ST-1", rfl, rfl⟩)

/-- C8: when the binding is found and destroying the bound session
entry succeeds but destroying the binding itself fails, the handler
acknowledges with status 202 and body `"ok"` (`.ack true` — neither
the full-success `.ack false` nor a failure), and the operation log
shows the session destruction stands with no compensating store
operation after it. -/
theorem slo_destroy_binding_failure_ack202
    (parseXML : String → Except Unit JsVal) (cfg : CasConfig) (lr : String)
    (store : SloStore) (result st sessionResult : JsVal)
    (hsl : cfg.single_logout = true)
    (hpx : parseXML lr = .ok result)
    (hst : jsAccess2 result "logoutrequest" "sessionindex" = .ok st)
    (hget : store.getResult = .ok sessionResult)
    (htr : sessionResult.truthy = true)
    (hkey : (sessionResult.get "key").truthy = true)
    (hd1 : store.destroySessionOk = true)
    (hd2 : store.destroyStOk = false) :
    handle_single_logout parseXML cfg lr store =
      ⟨.ack true, [.destroyOk (sessionResult.get "key"), .destroyFail st]⟩ := by
  simp only [handle_single_logout, hsl, hpx, hst, hget, hd1, hd2]
  simp [htr, hkey]

/-- Witness for C8: concrete binding `ST-1 ↦ sess-9`, session destroy
succeeds, binding destroy fails. -/
theorem slo_destroy_binding_failure_ack202_witness :
    handle_single_logout
      (fun _ => .ok (.obj [("logoutrequest", .obj [("sessionindex", .str "ST-1")])]))
      cfgSlo "req" ⟨.ok (.obj [("key", .str "sess-9")]), true, false⟩ =
      ⟨.ack true, [.destroyOk (.str "sess-9"), .destroyFail (.str "ST-1")]⟩ :=
  slo_destroy_binding_failure_ack202 _ cfgSlo "req" _
    (.obj [("logoutrequest", .obj [("sessionindex", .str "ST-1")])])
    (.str "ST-1") (.obj [("key", .str "sess-9")])
    rfl rfl rfl rfl rfl rfl rfl rfl

/-- C10: in the dev-mode short-circuit the dev attributes are written
into the session unconditionally — with `session_info` unset (the
boolean `false`), under the literal session key `"false"` — whereas the
ticket-validation success path writes the attributes slot only when
`session_info` is configured, leaving every other session slot
unchanged. -/
theorem dev_mode_attrs_frame (parseXML : String → Except Unit JsVal)
    (cfg : CasConfig) (ctx : Ctx) (o : TicketOracles)
    (hinfo : cfg.session_info = none) :
    (∀ mode : AuthType, (sget ctx.session cfg.session_name).truthy = false →
      cfg.is_dev_mode = true → cfg.session_name ≠ "false" →
      sget (_handle parseXML cfg ctx mode o).session "false" = cfg.dev_mode_info ∧
      sget (_handle parseXML cfg ctx mode o).session cfg.session_name =
        .str cfg.dev_mode_user ∧
      (∀ k, k ≠ "false" → k ≠ cfg.session_name →
        sget (_handle parseXML cfg ctx mode o).session k = sget ctx.session k)) ∧
    (∀ (body : String) (user attrs : JsVal), cfg.cas_version ≠ .saml11 →
      o.net = .ok body →
      casValidate parseXML cfg.cas_version body = .ok (.success user attrs) →
      cfg.single_logout = false →
      (sget (_handleTicket parseXML cfg ctx o).session cfg.session_name = user ∧
       ∀ k, k ≠ cfg.session_name →
        sget (_handleTicket parseXML cfg ctx o).session k = sget ctx.session k)) := by
  constructor
  · intro mode hid hdev hname
    have hr : _handle parseXML cfg ctx mode o =
        { action := .next,
          session := sset (sset ctx.session cfg.session_name (.str cfg.dev_mode_user))
            (sessionInfoKey cfg.session_info) cfg.dev_mode_info,
          storeOps := [], request := none } := by
      unfold _handle
      rw [hid, hdev]
      simp
    rw [hr]
    simp only [hinfo, sessionInfoKey]
    refine ⟨sget_sset_self _ _ _, ?_, ?_⟩
    · rw [sget_sset_ne _ _ _ _ hname]
      exact sget_sset_self _ _ _
    · intro k hk1 hk2
      rw [sget_sset_ne _ _ _ _ hk1, sget_sset_ne _ _ _ _ hk2]
  · intro body user attrs hv hnet hval hsl
    have hr : (_handleTicket parseXML cfg ctx o).session =
        sset ctx.session cfg.session_name user := by
      unfold _handleTicket
      rw [if_neg hv]
      simp only [hnet, hval, hsl, hinfo, sessionInfoTruthy]
      simp
    rw [hr]
    exact ⟨sget_sset_self _ _ _, fun k hk => sget_sset_ne _ _ _ _ hk⟩

/-- Witness for C10 at a concrete dev-mode configuration and a
concrete ticket-validation success. -/
theorem dev_mode_attrs_frame_witness :
    sget (_handle (fun _ => .error ())
      { cfgSlo with
        is_dev_mode := true
        dev_mode_user := "dev"
        dev_mode_info := .obj [("role", .str "admin")]
        session_info := none }
      { session := [], ticket := none, redirectTo := none, returnTo := none,
        path := "/", pathname := "/", externalKey := "ek" }
      .bounce ⟨.error (), true⟩).session "false" = .obj [("role", .str "admin")] :=
  ((dev_mode_attrs_frame (fun _ => .error ())
      { cfgSlo with
        is_dev_mode := true
        dev_mode_user := "dev"
        dev_mode_info := .obj [("role", .str "admin")]
        session_info := none }
      { session := [], ticket := none, redirectTo := none, returnTo := none,
        path := "/", pathname := "/", externalKey := "ek" }
      ⟨.error (), true⟩ rfl).1 .bounce rfl rfl (by decide)).1

/-- A parsed CAS 2.0/3.0 failure response with code INVALID_TICKET. -/
def v2FailFixture : JsVal :=
  .obj [("serviceresponse", .obj [("authenticationfailure",
    .obj [("$", .obj [("code", .str "INVALID_TICKET")])])])]

/-- C7: CAS 2.0/3.0 response parsing: an xml2js error yields
`Failure "Response from CAS server was bad."`; a root with a truthy
authentication-failure element yields `Failure "CAS authentication
failed (<code>)."` from its `$.code` attribute; a root with a truthy
authentication-success element yields `Success` with its `user` and
`attributes` fields (the absent-attributes value `undefined` becomes
the empty object at the point it is stored, `attrsOrEmpty`); a
parseable root with neither element, or whose `serviceresponse` is
missing (so the access throws), yields `Failure "CAS authentication
failed."`. -/
theorem v23_response_outcomes :
    (∀ e : Unit, validateV23 (.error e) =
      .ok (.failure "Response from CAS server was bad.")) ∧
    (∀ result sr failEl d code : JsVal,
      jsAccess result "serviceresponse" = .ok sr →
      jsAccess sr "authenticationfailure" = .ok failEl →
      failEl.truthy = true →
      jsAccess failEl "$" = .ok d →
      jsAccess d "code" = .ok code →
      validateV23 (.ok result) =
        .ok (.failure ("CAS authentication failed (" ++ jsToString code ++ ")."))) ∧
    (∀ result sr failEl succEl : JsVal,
      jsAccess result "serviceresponse" = .ok sr →
      jsAccess sr "authenticationfailure" = .ok failEl →
      failEl.truthy = false →
      jsAccess sr "authenticationsuccess" = .ok succEl →
      succEl.truthy = true →
      validateV23 (.ok result) =
        .ok (.success (succEl.get "user") (succEl.get "attributes"))) ∧
    attrsOrEmpty .undef = .obj [] ∧
    (∀ result sr failEl succEl : JsVal,
      jsAccess result "serviceresponse" = .ok sr →
      jsAccess sr "authenticationfailure" = .ok failEl →
      failEl.truthy = false →
      jsAccess sr "authenticationsuccess" = .ok succEl →
      succEl.truthy = false →
      validateV23 (.ok result) = .ok (.failure "CAS authentication failed.")) ∧
    (∀ (result sr : JsVal) (e : Unit),
      jsAccess result "serviceresponse" = .ok sr →
      jsAccess sr "authenticationfailure" = .error e →
      validateV23 (.ok result) = .ok (.failure "CAS authentication failed.")) := by
  refine ⟨fun e => rfl, ?_, ?_, rfl, ?_, ?_⟩
  · intro result sr failEl d code h1 h2 htr h4 h5
    have hbody : v23TryBody result =
        .ok (.failure ("CAS authentication failed (" ++ jsToString code ++ ").")) := by
      unfold v23TryBody
      simp only [h1, bind, Except.bind, h2, htr, if_true, h4, h5, pure, Except.pure]
    simp [validateV23, hbody]
  · intro result sr failEl succEl h1 h2 htr h4 h5
    have hbody : v23TryBody result =
        .ok (.success (succEl.get "user") (succEl.get "attributes")) := by
      unfold v23TryBody
      simp only [h1, bind, Except.bind, h2, htr, if_false, h4, h5, pure, Except.pure]
      simp
    simp [validateV23, hbody]
  · intro result sr failEl succEl h1 h2 htr h4 h5
    have hbody : v23TryBody result = .ok (.failure "CAS authentication failed.") := by
      unfold v23TryBody
      simp only [h1, bind, Except.bind, h2, htr, if_false, h4, h5, pure, Except.pure]
      simp
    simp [validateV23, hbody]
  · intro result sr e h1 h2
    have hbody : v23TryBody result = .error e := by
      unfold v23TryBody
      simp only [h1, bind, Except.bind, h2]
    simp [validateV23, hbody]

/-- Witness for C7 at a concrete INVALID_TICKET failure response. -/
theorem v23_response_outcomes_witness :
    validateV23 (.ok v2FailFixture) =
      .ok (.failure "CAS authentication failed (INVALID_TICKET).") :=
  v23_response_outcomes.2.1 v2FailFixture
    (.obj [("authenticationfailure", .obj [("$", .obj [("code", .str "INVALID_TICKET")])])])
    (.obj [("$", .obj [("code", .str "INVALID_TICKET")])])
    (.obj [("code", .str "INVALID_TICKET")])
    (.str "INVALID_TICKET") rfl rfl rfl rfl rfl

/-- C9: with no session identity, dev mode disabled, and Block mode,
the engine answers 401 even when the query carries a ticket — the
result records no session change, no store operation, and `request :=
none`: no validation round trip is attempted. -/
theorem block_overrides_ticket (parseXML : String → Except Unit JsVal)
    (cfg : CasConfig) (ctx : Ctx) (o : TicketOracles)
    (hid : (sget ctx.session cfg.session_name).truthy = false)
    (hdev : cfg.is_dev_mode = false)
    (ht : ticketTruthy ctx = true) :
    _handle parseXML cfg ctx .block o =
      { action := .status 401, session := ctx.session, storeOps := [],
        request := none } := by
  unfold _handle
  rw [hid, hdev]
  simp

/-- C6 (code defect): under saml1.1, `_handleTicket` throws a
ReferenceError while building the SOAP body (it reads `req.host` and
`req.query.ticket`, but no variable `req` is in scope; `_request` would
additionally read the out-of-scope `post_data`), so no HTTP POST is
ever issued: the result's `request` field is `none` and the action is
the uncaught exception. -/
theorem saml_ticket_request_never_issued (parseXML : String → Except Unit JsVal)
    (cfg : CasConfig) (ctx : Ctx) (o : TicketOracles)
    (hv : cfg.cas_version = .saml11) :
    _handleTicket parseXML cfg ctx o =
      { action := .thrown, session := ctx.session, storeOps := [],
        request := none } := by
  unfold _handleTicket
  rw [hv]
  simp

/-- Witness for C9 at a concrete Block request carrying a ticket. -/
theorem block_overrides_ticket_witness :
    _handle (fun _ => .error ()) cfgSlo
      { session := [], ticket := some "ST-1", redirectTo := none,
        returnTo := none, path := "/p", pathname := "/p", externalKey := "ek" }
      .block ⟨.error (), true⟩ =
      { action := .status 401, session := [], storeOps := [], request := none } :=
  block_overrides_ticket (fun _ => .error ()) cfgSlo
    { session := [], ticket := some "ST-1", redirectTo := none,
      returnTo := none, path := "/p", pathname := "/p", externalKey := "ek" }
    ⟨.error (), true⟩ rfl rfl rfl

/-- Witness for C6 at a concrete saml1.1 configuration. -/
theorem saml_ticket_request_never_issued_witness :
    _handleTicket (fun _ => .error ())
      { cfgSlo with cas_version := .saml11 }
      { session := [], ticket := some "ST-1", redirectTo := none,
        returnTo := none, path := "/p", pathname := "/p", externalKey := "ek" }
      ⟨.ok "body", true⟩ =
      { action := .thrown, session := [], storeOps := [], request := none } :=
  saml_ticket_request_never_issued (fun _ => .error ())
    { cfgSlo with cas_version := .saml11 }
    { session := [], ticket := some "ST-1", redirectTo := none,
      returnTo := none, path := "/p", pathname := "/p", externalKey := "ek" }
    ⟨.ok "body", true⟩ rfl

/-- C1: the per-request transition table.  With an identity in the
session: BounceRedirect redirects to the `redirectTo` query value,
other modes pass through.  Without one: dev mode writes the dev
identity and dev attributes and passes through; Block answers 401; a
(truthy) ticket delegates to `_handleTicket`, where a transport error
or a validation failure answers 401, and a validation success writes
the identity (and, when an attributes slot is configured, the
attributes) into the session, registers the single-logout binding with
TTL `ONE_DAY` when enabled, and redirects to the saved
`cas_return_to`; otherwise the return URL (`returnTo` query value
taking precedence over the current path) is saved in the session and
the response redirects to `<cas_url>/login?service=<service_url +
pathname>` plus `renew=true` when configured. -/
theorem handle_transition_table (parseXML : String → Except Unit JsVal)
    (cfg : CasConfig) (ctx : Ctx) (mode : AuthType) (o : TicketOracles) :
    ((sget ctx.session cfg.session_name).truthy = true →
      mode = .bounce_redirect →
      _handle parseXML cfg ctx mode o =
        { action := .redirect ((ctx.redirectTo.map JsVal.str).getD .undef),
          session := ctx.session, storeOps := [], request := none }) ∧
    ((sget ctx.session cfg.session_name).truthy = true →
      mode ≠ .bounce_redirect →
      _handle parseXML cfg ctx mode o =
        { action := .next, session := ctx.session, storeOps := [],
          request := none }) ∧
    ((sget ctx.session cfg.session_name).truthy = false →
      cfg.is_dev_mode = true →
      _handle parseXML cfg ctx mode o =
        { action := .next,
          session := sset (sset ctx.session cfg.session_name
            (.str cfg.dev_mode_user)) (sessionInfoKey cfg.session_info)
            cfg.dev_mode_info,
          storeOps := [], request := none }) ∧
    ((sget ctx.session cfg.session_name).truthy = false →
      cfg.is_dev_mode = false → mode = .block →
      _handle parseXML cfg ctx mode o =
        { action := .status 401, session := ctx.session, storeOps := [],
          request := none }) ∧
    ((sget ctx.session cfg.session_name).truthy = false →
      cfg.is_dev_mode = false → mode ≠ .block → ticketTruthy ctx = true →
      _handle parseXML cfg ctx mode o = _handleTicket parseXML cfg ctx o) ∧
    (cfg.cas_version ≠ .saml11 → o.net = .error () →
      (_handleTicket parseXML cfg ctx o).action = .status 401) ∧
    (∀ (body : String) (r : String), cfg.cas_version ≠ .saml11 →
      o.net = .ok body →
      casValidate parseXML cfg.cas_version body = .ok (.failure r) →
      (_handleTicket parseXML cfg ctx o).action = .status 401) ∧
    (∀ (body : String) (user attrs : JsVal), cfg.cas_version ≠ .saml11 →
      o.net = .ok body →
      casValidate parseXML cfg.cas_version body = .ok (.success user attrs) →
      (cfg.single_logout = false ∨ o.setOk = true) →
      _handleTicket parseXML cfg ctx o =
        { action := .redirect (sget
            (if sessionInfoTruthy cfg.session_info then
              sset (sset ctx.session cfg.session_name user)
                (sessionInfoKey cfg.session_info) (attrsOrEmpty attrs)
            else sset ctx.session cfg.session_name user) "cas_return_to")
          session :=
            (if sessionInfoTruthy cfg.session_info then
              sset (sset ctx.session cfg.session_name user)
                (sessionInfoKey cfg.session_info) (attrsOrEmpty attrs)
            else sset ctx.session cfg.session_name user)
          storeOps :=
            (if cfg.single_logout then
              [.set (ctx.ticket.getD "")
                (.obj [("key", .str ctx.externalKey)]) ONE_DAY]
            else [])
          request := some
            { host := cfg.cas_host, port := cfg.cas_port, method := "GET"
              path := urlFormatPath (cfg.cas_path ++ validateUri cfg.cas_version)
                [("service", cfg.service_url ++ ctx.pathname),
                 ("ticket", ctx.ticket.getD "")] } }) ∧
    ((sget ctx.session cfg.session_name).truthy = false →
      cfg.is_dev_mode = false → mode ≠ .block → ticketTruthy ctx = false →
      _handle parseXML cfg ctx mode o =
        { action := .redirect (.str (cfg.cas_url ++
            urlFormatPath "/login" (loginQuery cfg ctx)))
          session := sset ctx.session "cas_return_to" (.str (returnToValue ctx))
          storeOps := [], request := none }) := by
  refine ⟨?_, ?_, ?_, ?_, ?_, ?_, ?_, ?_, ?_⟩
  · intro hid hmode
    unfold _handle
    rw [hid, hmode]
    simp
  · intro hid hmode
    unfold _handle
    rw [hid]
    simp [hmode]
  · intro hid hdev
    unfold _handle
    rw [hid, hdev]
    simp
  · intro hid hdev hmode
    unfold _handle
    rw [hid, hdev, hmode]
    simp
  · intro hid hdev hmode ht
    unfold _handle
    rw [hid, hdev, ht]
    simp [hmode]
  · intro hv hnet
    unfold _handleTicket
    rw [if_neg hv]
    simp [hnet]
  · intro body r hv hnet hval
    unfold _handleTicket
    rw [if_neg hv]
    simp [hnet, hval]
  · intro body user attrs hv hnet hval hslo
    unfold _handleTicket
    rw [if_neg hv]
    simp only [hnet, hval]
    cases hsl : cfg.single_logout with
    | false => simp
    | true =>
      rcases hslo with h | h
      · rw [h] at hsl; cases hsl
      · simp [h]
  · intro hid hdev hmode ht
    unfold _handle _login
    rw [hid, hdev, ht]
    simp [hmode]

/-- Witness for C1 at a concrete Bounce request with no identity and
no ticket: the engine redirects to the CAS login with the service
parameter and saves the return path. -/
theorem handle_transition_table_witness :
    _handle (fun _ => .error ()) cfgSlo
      { session := [], ticket := none, redirectTo := none, returnTo := none,
        path := "/pg?x=1", pathname := "/pg", externalKey := "ek" }
      .bounce ⟨.error (), true⟩ =
      { action := .redirect (.str
          "https://cas.example.org/login?service=https%3A%2F%2Fapp.example.org%2Fpg")
        session := [("cas_return_to", .str "/pg?x=1")]
        storeOps := [], request := none } := by
  have h := (handle_transition_table (fun _ => .error ()) cfgSlo
    { session := [], ticket := none, redirectTo := none, returnTo := none,
      path := "/pg?x=1", pathname := "/pg", externalKey := "ek" }
    .bounce ⟨.error (), true⟩).2.2.2.2.2.2.2.2 rfl rfl (by decide) rfl
  rw [h]
  rfl

/-- C4: a ticket-to-session binding (a store entry keyed by the ticket
value, holding the local session key) is live at time `now` exactly
when single logout was enabled at a successful validation of that
ticket — its entry is written with TTL `ONE_DAY` (24 hours in
milliseconds) — that validation is the latest one for the ticket, no
later single-logout reconciliation destroyed the entry, and the TTL
has not elapsed; moreover every stored binding carries TTL
`ONE_DAY`. -/
theorem binding_exists_iff (tr : List SloEvent) (t : String) (now : Nat) :
    (bindingLive (runTrace tr) t now = true ↔
      ∃ pre k ti post, tr = pre ++ SloEvent.validated true t k ti :: post ∧
        (∀ k2 t2, SloEvent.validated true t k2 t2 ∉ post) ∧
        (∀ t2, SloEvent.reconciled t t2 ∉ post) ∧
        now < ti + ONE_DAY) ∧
    (∀ b : Binding, List.lookup t (runTrace tr) = some b → b.ttl = ONE_DAY) := by
  constructor
  · cases h : List.lookup t (runTrace tr) with
    | none =>
      simp only [bindingLive, h]
      constructor
      · intro hf; cases hf
      · rintro ⟨pre, k, ti, post, hdec, hnv, hnr, hlt⟩
        have h2 : List.lookup t (runTrace tr) = some ⟨k, ti, ONE_DAY⟩ :=
          (lookup_runTrace tr t ⟨k, ti, ONE_DAY⟩).mpr
            ⟨⟨pre, post, hdec, hnv, hnr⟩, rfl⟩
        rw [h] at h2
        cases h2
    | some b =>
      have hb := (lookup_runTrace tr t b).mp h
      simp only [bindingLive, h]
      constructor
      · intro hlt
        rcases hb with ⟨⟨pre, post, hdec, hnv, hnr⟩, httl⟩
        refine ⟨pre, b.key, b.insertedAt, post, hdec, hnv, hnr, ?_⟩
        have hlt2 := of_decide_eq_true hlt
        rwa [httl] at hlt2
      · rintro ⟨pre, k, ti, post, hdec, hnv, hnr, hlt⟩
        have h2 : List.lookup t (runTrace tr) = some ⟨k, ti, ONE_DAY⟩ :=
          (lookup_runTrace tr t ⟨k, ti, ONE_DAY⟩).mpr
            ⟨⟨pre, post, hdec, hnv, hnr⟩, rfl⟩
        rw [h] at h2
        injection h2 with h2
        rw [h2]
        exact decide_eq_true hlt
  · intro b hbv
    exact ((lookup_runTrace tr t b).mp hbv).2

/-- Witness for C4: after a single successful validation of `ST-1`
with single logout enabled at time 0, the binding is live shortly
afterwards. -/
theorem binding_exists_iff_witness :
    bindingLive (runTrace [SloEvent.validated true "ST-1" "sess-9" 0]) "ST-1" 5 =
      true :=
  (binding_exists_iff [SloEvent.validated true "ST-1" "sess-9" 0] "ST-1" 5).1.mpr
    ⟨[], "sess-9", 0, [], rfl, by simp, by simp, by decide⟩

end KoaAuthCas
